import Mathlib

/-!
Verification of the petk data-profiling library (open-data-toronto/petk)
against its natural-language specification.

The development shallowly embeds the Python sources:
* `petk/constants.py`  — semantic-type constants and the schema structure,
* `petk/utils.py`      — `get_type`, the semantic type classifier,
* `petk/tools.py`      — `get_type`/`get_dtype` (string-modifier variant),
  `is_outbound`, and the numeric pieces of `get_description`,
* `petk/validation.py` — the rule-checker registry,
* `petk/exploration.py`— `DataReport`: schema generation, null
  normalization, column resolution, and `validate`.

Python/pandas values are modelled by the inductive `Val`; a pandas Series
is a named, dtype-tagged list of values.  Geometry-backend operations
(shapely validity, spatial indexing, reprojection) are out of scope per the
spec and enter the model as explicit function parameters.  Floating point
payloads are modelled by integers (only equality/order with the bounds and
with zero matter to the claims); `NaN` is a distinct value constructor.
-/

namespace Petk

/-- A Python/pandas cell value.  `vNone` is Python `None`, `vNaN` the float
NaN sentinel.  `vArr` models an array-valued (multi-dimensional, unhashable)
entry: pandas `nunique`/`value_counts` raise `TypeError` on such values. -/
inductive Val where
  | vNone : Val
  | vNaN : Val
  | vInt : Int → Val
  | vStr : String → Val
  | vBool : Bool → Val
  | vArr : Nat → Val
deriving DecidableEq, Repr

/-- Values pandas `isna` treats as missing (`None` and `NaN`). -/
def isNa : Val → Bool
  | .vNone => true
  | .vNaN => true
  | _ => false

/-- Values that are not hashable: `nunique` raises on them. -/
def isUnhashable : Val → Bool
  | .vArr _ => true
  | _ => false

/-- Python truthiness of a value (`bool(x)`). -/
def pyTruthy : Val → Bool
  | .vNone => false
  | .vNaN => true
  | .vInt n => n != 0
  | .vStr s => s ≠ ""
  | .vBool b => b
  | .vArr n => n != 0

/-- Membership of a value in a list of sentinels; pandas `Series.isin`
matches `NaN` entries against a `NaN` in the argument list, which the plain
equality of the model already provides. -/
def vIsin (v : Val) (l : List Val) : Bool := l.contains v

/-- Python's substring test `a in b` on strings, computed on the underlying
character lists. -/
def charsPrefix : List Char → List Char → Bool
  | [], _ => true
  | _ :: _, [] => false
  | c :: cs, d :: ds => c == d && charsPrefix cs ds

def charsInfix (needle : List Char) : List Char → Bool
  | [] => needle.isEmpty
  | c :: cs => charsPrefix needle (c :: cs) || charsInfix needle cs

def pyInStr (a b : String) : Bool := charsInfix a.data b.data

/-- Code-point lexicographic order on strings (the order pandas/numpy use
to sort string keys), computed structurally so that concrete instances
evaluate in the kernel. -/
def charsLe : List Char → List Char → Bool
  | [], _ => true
  | _ :: _, [] => false
  | c :: cs, d :: ds =>
    if c.toNat < d.toNat then true
    else if c.toNat = d.toNat then charsLe cs ds
    else false

def strLe (a b : String) : Bool := charsLe a.data b.data

/-! ## `petk/constants.py` -/

namespace Constants

def TYPE_BOOL : String := "BOOLEAN"
def TYPE_DATE : String := "DATE"
def TYPE_GEO : String := "GEOMETRY"
def TYPE_NUM : String := "NUMERIC"
def TYPE_STR : String := "STRING"
def TYPE_EMPTY : String := "EMPTY"
def TYPE_UNSUPPORTED : String := "UNSUPPORTED"

/-- Modelled from the spec: `constants.TYPE_CONST` is referenced by
`utils.get_type`/`tools.get_type` but its definition is absent from the
`constants.py` under `src/`; the spec's semantic-type enum names the tag
`CONSTANT`. -/
def TYPE_CONST : String := "CONSTANT"

/-- Modelled from the spec: `constants.TYPE_UNIQUE` is referenced by
`utils.get_type`/`tools.get_type` but absent from `constants.py` under
`src/`; the spec's semantic-type enum names the tag `UNIQUE`. -/
def TYPE_UNIQUE : String := "UNIQUE"

/-- Modelled from the spec: `constants.NULLS`, the process-wide default
null-sentinel set `{None, NaN, "null", ""}` (§3 NullSet), referenced by
`tools.get_description` and `DataReport.__init__` and matching the
`defaults` entry of `SCHEMA_STRUCTURE['nulls']` in `constants.py`. -/
def NULLS : List Val := [.vNone, .vNaN, .vStr "null", .vStr ""]

/-- The semantic-type enumeration of the spec (§3). -/
def semanticTypes : List String :=
  [TYPE_EMPTY, TYPE_CONST, TYPE_UNIQUE, TYPE_BOOL, TYPE_DATE,
   TYPE_NUM, TYPE_STR, TYPE_GEO, TYPE_UNSUPPORTED]

end Constants

/-! ## Series model and pandas primitives -/

/-- The pandas storage dtype of a series, read by the
`pandas.api.types.is_*_dtype` predicates. -/
inductive DType where
  | boolT : DType
  | datetime64 : DType
  | int64 : DType
  | float64 : DType
  | objectT : DType
deriving DecidableEq, Repr

def is_bool_dtype : DType → Bool
  | .boolT => true
  | _ => false

def is_datetime64_dtype : DType → Bool
  | .datetime64 => true
  | _ => false

/-- `pandas.api.types.is_numeric_dtype`: integer, float and bool dtypes. -/
def is_numeric_dtype : DType → Bool
  | .int64 => true
  | .float64 => true
  | .boolT => true
  | _ => false

/-- A pandas Series: a named, dtype-tagged sequence of values.  Row ids are
positional (the default RangeIndex of the sources). -/
structure Series where
  name : String
  dtype : DType
  values : List Val
deriving DecidableEq, Repr

/-- All values of the series are hashable, so `nunique` succeeds. -/
def hashableVals (vs : List Val) : Bool := !vs.any isUnhashable

/-- Total core of `Series.nunique`: number of distinct values, dropping
`None`/`NaN` when `dropna` is set. -/
def nuniqueTotal (dropna : Bool) (vs : List Val) : Nat :=
  ((if dropna then vs.filter (fun v => !isNa v) else vs).eraseDups).length

/-- `Series.nunique(dropna=...)`, raising (as `Except.error`) on unhashable
entries such as array-valued cells. -/
def nuniqueE (dropna : Bool) (vs : List Val) : Except String Nat :=
  if hashableVals vs then .ok (nuniqueTotal dropna vs)
  else .error "unhashable series values"

/-! ## `petk/utils.py` — `get_type` (the spec's Type Classifier, §4.1) -/

namespace Utils

/-- The branch cascade of `utils.get_type` (utils.py lines 17-30), applied
once the distinct counts are available. -/
def typeFromCounts (dtype : DType) (distinct_count value_count len : Nat) :
    String :=
  if value_count = 1 ∧ distinct_count = 0 then Constants.TYPE_EMPTY
  else if distinct_count = 1 then Constants.TYPE_CONST
  else if is_bool_dtype dtype || (distinct_count == 2 && is_numeric_dtype dtype)
    then Constants.TYPE_BOOL
  else if is_datetime64_dtype dtype then Constants.TYPE_DATE
  else if is_numeric_dtype dtype then Constants.TYPE_NUM
  else if value_count = len then Constants.TYPE_UNIQUE
  else Constants.TYPE_STR

/-- `utils.get_type` (utils.py lines 9-33): geometry-named columns short
circuit to `GEOMETRY`; the body runs under `try`, and any exception (the
`nunique` calls raising on malformed values) yields `UNSUPPORTED`. -/
def get_type (s : Series) : String :=
  if s.name = "geometry" then Constants.TYPE_GEO
  else
    match nuniqueE true s.values, nuniqueE false s.values with
    | .ok distinct_count, .ok value_count =>
        typeFromCounts s.dtype distinct_count value_count s.values.length
    | _, _ => Constants.TYPE_UNSUPPORTED

end Utils

/-- The classifier exactly as claim C1 words it (spec §4.1 steps 1-9),
written independently of the source: geometry name first, then the strict
priority cascade over total distinct counts. -/
def claimClassify (s : Series) : String :=
  if s.name = "geometry" then Constants.TYPE_GEO
  else
    let distinct := nuniqueTotal true s.values
    let valueCount := nuniqueTotal false s.values
    if valueCount = 1 ∧ distinct = 0 then Constants.TYPE_EMPTY
    else if distinct = 1 then Constants.TYPE_CONST
    else if is_bool_dtype s.dtype || (is_numeric_dtype s.dtype && distinct == 2)
      then Constants.TYPE_BOOL
    else if is_datetime64_dtype s.dtype then Constants.TYPE_DATE
    else if is_numeric_dtype s.dtype then Constants.TYPE_NUM
    else if valueCount = s.values.length then Constants.TYPE_UNIQUE
    else Constants.TYPE_STR

/-! ## `petk/tools.py` -/

namespace Tools

/-- `tools.get_dtype` (tools.py lines 110-118) applied to a series: bool
dtype or a numeric series with exactly two distinct non-null values is
`BOOLEAN`, then datetime, then numeric, else `STRING`. -/
def get_dtype (s : Series) : String :=
  if is_bool_dtype s.dtype ||
      (nuniqueTotal true s.values == 2 && is_numeric_dtype s.dtype) then
    Constants.TYPE_BOOL
  else if is_datetime64_dtype s.dtype then Constants.TYPE_DATE
  else if is_numeric_dtype s.dtype then Constants.TYPE_NUM
  else Constants.TYPE_STR

/-- `' '.join([modifier, dtype]).strip()` of tools.py line 105: the
modifier is possibly empty, the dtype tag never is. -/
def joinStrip (modifier dtype : String) : String :=
  if modifier = "" then dtype else modifier ++ " " ++ dtype

/-- `tools.get_type` (tools.py lines 91-108): the historical variant that
prefixes the dtype tag with an `EMPTY`/`CONSTANT`/`UNIQUE` modifier; the
body runs under `try` with exceptions mapped to `UNSUPPORTED`. -/
def get_type (s : Series) : String :=
  if s.name = "geometry" then Constants.TYPE_GEO
  else if hashableVals s.values then
    let modifier :=
      if nuniqueTotal false s.values = 1 ∧ nuniqueTotal true s.values = 0 then
        Constants.TYPE_EMPTY
      else if nuniqueTotal true s.values = 1 then Constants.TYPE_CONST
      else if nuniqueTotal false s.values = s.values.length then
        Constants.TYPE_UNIQUE
      else ""
    joinStrip modifier (get_dtype s)
  else Constants.TYPE_UNSUPPORTED

/-- Python `x < y` as evaluated by `is_outbound` under the numeric
dispatch of `validation.range`: integer comparison; comparisons against
`NaN` are false.  Other value shapes cannot reach this comparison under a
numeric dtype. -/
def valLt : Val → Val → Bool
  | .vInt a, .vInt b => a < b
  | _, _ => false

def valGt : Val → Val → Bool
  | .vInt a, .vInt b => b < a
  | _, _ => false

/-- `tools.is_outbound` (tools.py lines 120-124).  Note the guards use
Python truthiness of the bound (`if lower and x < lower`), not an
is-None test: a bound equal to `0` is falsy and disables its side. -/
def is_outbound (x lower upper : Val) : Option String :=
  if pyTruthy lower && valLt x lower then
    some "Value is less than the lower bound"
  else if pyTruthy upper && valGt x upper then
    some "Value is greater than the upper bound"
  else none

/-- The `count` statistic of `tools.get_description` (tools.py line 22):
`series[~series.isin(nulls)].count()` — entries in the null-sentinel list
are dropped, then non-NaN entries are counted. -/
def seriesCount (vs nulls : List Val) : Nat :=
  ((vs.filter (fun v => !vIsin v nulls)).filter (fun v => !isNa v)).length

/-- `np.count_nonzero(series)`: per-element truthiness count (NaN counts
as nonzero). -/
def npCountNonzero (vs : List Val) : Nat := vs.countP pyTruthy

/-- `n_zeros = series.size - np.count_nonzero(series)` of
`tools.get_description` (tools.py line 59). -/
def n_zeros (vs : List Val) : Nat := vs.length - npCountNonzero vs

/-- The claim's "count_nonzero excluding missing values": nonzero entries
among those not in the null-sentinel set. -/
def nonMissingNonzero (vs nulls : List Val) : Nat :=
  (vs.filter (fun v => !vIsin v nulls)).countP pyTruthy

/-- A cell a NUMERIC-typed column can hold: an integer-modelled number or
the NaN missing marker. -/
def isNumericCell : Val → Bool
  | .vNaN => true
  | .vInt _ => true
  | _ => false

end Tools

/-! ## `petk/validation.py` — the rule-checker registry -/

/-- A geometry cell: either a null geometry or a geometry with a validity
flag and the backend's invalidity explanation text.  Geometry computations
themselves are the out-of-scope backend. -/
inductive GeoVal where
  | gnull : GeoVal
  | geom (valid : Bool) (explainText : String) : GeoVal
deriving DecidableEq, Repr

/-- `GeoSeries.is_valid`: a null geometry is not valid. -/
def geoIsValid : GeoVal → Bool
  | .gnull => false
  | .geom v _ => v

/-- One part of an exploded, metre-projected geometry, as consumed by
`tools.is_sliver`: its geometry-type tag and its area/length measures. -/
structure GeoPiece where
  geomType : String
  area : Int
  pieceLength : Int
deriving DecidableEq, Repr

/-- ASCII lowercase of a string (`str.lower()`), computed structurally. -/
def charLower (c : Char) : Char :=
  if 65 ≤ c.toNat ∧ c.toNat ≤ 90 then Char.ofNat (c.toNat + 32) else c

def strLower (s : String) : String := ⟨s.data.map charLower⟩

namespace Validation

/-- `tools.is_sliver` (tools.py lines 126-132): polygons are slivers when
their area is under the threshold, linestrings when their length is;
points never are. -/
def is_sliver (x : GeoPiece) (threshold : Int) : Bool :=
  if pyInStr "polygon" (strLower x.geomType) then x.area < threshold
  else if pyInStr "linestring" (strLower x.geomType) then
    x.pieceLength < threshold
  else false

/-- `validation.range` (validation.py lines 22-38).  Dispatch tests the
`tools.get_type` STRING RESULT for substring containment in the type
constants (`any(dtype in type for type in [TYPE_DATE, TYPE_NUM])` and
`dtype in constants.TYPE_STR`); a two-component bound parameter is then
unpacked and `is_outbound` applied per value (a parameter of any other
length raises at the unpacking, modelled as no result). -/
def range (s : Series) (param : List Val) : Option (List (Nat × String)) :=
  if pyInStr (Tools.get_type s) Constants.TYPE_DATE ||
      pyInStr (Tools.get_type s) Constants.TYPE_NUM then
    match param with
    | [lower, upper] =>
      if (s.values.enum.filterMap
            (fun p => (Tools.is_outbound p.2 lower upper).map
              (fun note => (p.1, note)))).isEmpty then none
      else some (s.values.enum.filterMap
        (fun p => (Tools.is_outbound p.2 lower upper).map
          (fun note => (p.1, note))))
    | _ => none
  else if pyInStr (Tools.get_type s) Constants.TYPE_STR then
    if (s.values.enum.filter (fun p => !vIsin p.2 param)).isEmpty then none
    else some ((s.values.enum.filter (fun p => !vIsin p.2 param)).map
      (fun p => (p.1, "Value not within the accepted range")))
  else none

/-- `validation.geospatial` (validation.py lines 16-20): flag invalid
geometries, with the fixed `Null geometry` note for nulls and the
backend's explanation otherwise. -/
def geospatial (series : List (Nat × GeoVal)) : Option (List (Nat × String)) :=
  let invalids := series.filter (fun p => !geoIsValid p.2)
  if invalids.isEmpty then none
  else some (invalids.map
    (fun p => (p.1, match p.2 with
      | .gnull => "Null geometry"
      | .geom _ e => e)))

/-- `validation.bounding_box` (validation.py lines 8-14).  The spatial
`cx` box selection belongs to the geometry backend, so the model takes the
selection predicate as a parameter. -/
def bounding_box (inBox : GeoVal → Bool) (series : List (Nat × GeoVal))
    (xmin xmax ymin ymax : Int) : Option (List (Nat × String)) :=
  let outsiders := series.filter (fun p => !inBox p.2)
  if outsiders.isEmpty then none
  else some (outsiders.map (fun p =>
    (p.1, "Geometry outside of bbox(" ++ toString xmin ++ ", " ++
      toString xmax ++ ", " ++ toString ymin ++ ", " ++ toString ymax ++ ")")))

/-- Sorted (ascending) list of the distinct keys with their
multiplicities: `groupby(level=0).count()` with pandas' default key
sort. -/
def groupCounts (ks : List Nat) : List (Nat × Nat) :=
  (List.insertionSort (· ≤ ·) ks.eraseDups).map (fun k => (k, ks.count k))

/-- `validation.sliver` (validation.py lines 40-47).  The series is taken
after the backend's `explode()`/`to_crs(...)` step: a list of parts keyed
by the original row id (`level=0` of the exploded index); the
`projected_coordinates` parameter only feeds that reprojection and is
dropped with it. -/
def sliver (pieces : List (Nat × GeoPiece)) (threshold : Int) :
    Option (List (Nat × String)) :=
  let slivers := pieces.filter (fun p => is_sliver p.2 threshold)
  let counts := groupCounts (slivers.map Prod.fst)
  if counts.isEmpty then none
  else some (counts.map
    (fun p => (p.1, toString p.2 ++ " slivers found within geometry")))

end Validation

/-! ## `petk/exploration.py` — `DataReport` -/

namespace Exploration

/-- A raw rule value inside a user-supplied rule group: a scalar (Python
`None` included, as `Val.vNone`) or a list/tuple — the two shapes
`_format_requirements` distinguishes with its `isinstance(v, (list,
tuple))` test. -/
inductive RVal where
  | scalar : Val → RVal
  | vlist : List Val → RVal
deriving DecidableEq, Repr

/-- `_format_requirements` (exploration.py lines 182-199): entries whose
column is absent from the table are dropped (with a warning), and for a
list-shaped rule group a scalar value is wrapped into a singleton list.
The source text of `_generate_schema` carries slips (it misspells the
`warnings` module, shadows the helper's name with `_format_results`, and
unpacks `zip` into three names); the definition follows its evident
structure, which is also spec §4.2. -/
def formatRequirements (dfCols : List String) (to_list : Bool) :
    List (String × RVal) → List (String × RVal)
  | [] => []
  | (k, v) :: rest =>
    if dfCols.contains k then
      (match v with
        | .scalar w =>
          if to_list then (k, RVal.vlist [w]) else (k, RVal.scalar w)
        | .vlist ws => (k, RVal.vlist ws)) ::
        formatRequirements dfCols to_list rest
    else formatRequirements dfCols to_list rest

/-- A built schema: per-column rule maps, both levels in dict insertion
order. -/
abbrev Schema : Type := List (String × List (String × RVal))

/-- `schema[col][name] = condition` on the inner rule map: replace the
key in place or append it. -/
def condSet (conds : List (String × RVal)) (name : String) (v : RVal) :
    List (String × RVal) :=
  if conds.any (fun kv => kv.1 == name) then
    conds.map (fun kv => if kv.1 == name then (name, v) else kv)
  else conds ++ [(name, v)]

/-- Setting one rule of one column in the schema accumulator
(`schema[col][name] = condition`, creating `schema[col]` on demand). -/
def schemaInsert (schema : Schema) (col name : String) (v : RVal) : Schema :=
  if schema.any (fun e => e.1 == col) then
    schema.map (fun e => if e.1 == col then (e.1, condSet e.2 name v) else e)
  else schema ++ [(col, [(name, v)])]

/-- Processing of one rule group by `_generate_schema`: normalize it with
`_format_requirements`, then fold its entries into the accumulator. -/
def addGroup (dfCols : List String) (schema : Schema) (name : String)
    (to_list : Bool) (req : List (String × RVal)) : Schema :=
  (formatRequirements dfCols to_list req).foldl
    (fun sch kv => schemaInsert sch kv.1 name kv.2) schema

/-- `schema['geometry'] = {'sliver': sliver, 'bounding_box':
bounding_box}` — dict assignment: replace in place or append. -/
def setGeometry (schema : Schema) (conds : List (String × RVal)) : Schema :=
  if schema.any (fun e => e.1 == "geometry") then
    schema.map (fun e => if e.1 == "geometry" then (e.1, conds) else e)
  else schema ++ [("geometry", conds)]

/-- `DataReport._generate_schema` (exploration.py lines 181-222): the
four rule groups are folded in the order of `SCHEMA_STRUCTURE` (`nulls`
list-shaped, then `default`, `min`, `max`), and when the table carries a
geometry column its entry is overwritten with the `sliver` and
`bounding_box` parameters. -/
def generateSchema (dfCols : List String)
    (nullsG defaultG minG maxG : List (String × RVal))
    (sliverP bboxP : RVal) : Schema :=
  let s1 := addGroup dfCols [] "nulls" true nullsG
  let s2 := addGroup dfCols s1 "default" false defaultG
  let s3 := addGroup dfCols s2 "min" false minG
  let s4 := addGroup dfCols s3 "max" false maxG
  if dfCols.contains "geometry" then
    setGeometry s4 [("sliver", sliverP), ("bounding_box", bboxP)]
  else s4

/-- The per-column extra null sentinels of `DataReport.__init__`
(exploration.py line 26): the column's entry in the (list-normalized)
nulls rule group, empty when absent. -/
def columnExtra (nullsGroup : List (String × List Val)) (col : String) :
    List Val :=
  (nullsGroup.lookup col).getD []

/-- The sentinel list `constants.NULLS + extra` used by the `replace` on
line 27 of exploration.py. -/
def effectiveNulls (nullsGroup : List (String × List Val)) (col : String) :
    List Val :=
  Constants.NULLS ++ columnExtra nullsGroup col

/-- `self.df[col].replace(constants.NULLS + extra, np.nan)` applied to a
single cell. -/
def normalizeVal (nullsGroup : List (String × List Val)) (col : String)
    (v : Val) : Val :=
  if vIsin v (effectiveNulls nullsGroup col) then .vNaN else v

/-- The whole-column null normalization of `DataReport.__init__`. -/
def normalizeColumn (nullsGroup : List (String × List Val)) (col : String)
    (vs : List Val) : List Val :=
  vs.map (normalizeVal nullsGroup col)

/-- One row of the accumulated `self.validation` table: the checker name
(`function`), the flagged row id (`index`), the note, and the `column`
tag added after the concat (exploration.py lines 119-124). -/
structure IssueRow where
  function : String
  index : Nat
  notes : String
  column : String
deriving DecidableEq, Repr

/-- The callable members `dir(validation)` exposes, in sorted order: the
five checker functions of `validation.py` plus its imported
`shapely.validation.explain_validity` (module imports are not callable
and dunder members are not callables either). -/
def validationCallables : List String :=
  ["bounding_box", "content_type", "explain_validity", "geospatial",
   "range", "sliver"]

/-- `np.intersect1d(list(conditions.keys()), callables)` (exploration.py
lines 96-100): the sorted unique common elements.  `validationCallables`
is sorted and duplicate-free, so filtering it by key membership is that
intersection. -/
def checksFor (conds : List (String × RVal)) : List String :=
  validationCallables.filter (fun c => (conds.map Prod.fst).contains c)

/-- The audits dict built for one column of one `validate` pass
(exploration.py lines 102-116): the unconditional `geospatial` entry for
the geometry column when it reports issues, then each dispatched checker
that reports issues.  Checker outcomes are supplied by the
`runRule`/`geoRun` oracle parameters: the concrete checkers are modelled
separately and their geometry inputs belong to the out-of-scope
backend. -/
def colAudits (runRule : String → String → Option (List (Nat × String)))
    (geoRun : String → Option (List (Nat × String)))
    (col : String) (conds : List (String × RVal)) :
    List (String × List (Nat × String)) :=
  (if col = "geometry" then
    match geoRun col with
    | some issues => [("geospatial", issues)]
    | none => []
  else []) ++
    (checksFor conds).filterMap
      (fun v => (runRule v col).map (fun issues => (v, issues)))

/-- The checker invocations made for one column in one pass: the
unconditional `geospatial` call on the geometry column, then every
checker in the dispatch intersection. -/
def colLog (col : String) (conds : List (String × RVal)) :
    List (String × String) :=
  (if col = "geometry" then [(col, "geospatial")] else []) ++
    (checksFor conds).map (fun v => (col, v))

/-- `pd.concat(audits...).reset_index()` plus the `column` tag: the issue
rows appended to `self.validation` for one column. -/
def auditRows (col : String)
    (audits : List (String × List (Nat × String))) : List IssueRow :=
  audits.flatMap (fun fa => fa.2.map (fun p => ⟨fa.1, p.1, p.2, col⟩))

/-- The `for col, conditions in self.schema.items()` loop of
`DataReport.validate` (exploration.py lines 93-128): a column is skipped
when it is not requested or when the accumulated validation table already
records an issue row for it; otherwise its checkers run and their rows
are appended.  Returns the final table and the invocation log. -/
def validateLoop (runRule : String → String → Option (List (Nat × String)))
    (geoRun : String → Option (List (Nat × String)))
    (cols : List String) :
    Schema → List IssueRow → List IssueRow × List (String × String)
  | [], st => (st, [])
  | e :: rest, st =>
    if !cols.contains e.1 || st.any (fun r => r.column == e.1) then
      validateLoop runRule geoRun cols rest st
    else
      ((validateLoop runRule geoRun cols rest
          (st ++ auditRows e.1 (colAudits runRule geoRun e.1 e.2))).1,
       colLog e.1 e.2 ++
         (validateLoop runRule geoRun cols rest
           (st ++ auditRows e.1 (colAudits runRule geoRun e.1 e.2))).2)

/-- Deduplication keeping the first occurrence of each name. -/
def dedupFirst : List String → List String
  | [] => []
  | x :: xs => x :: (dedupFirst xs).filter (fun y => !(y == x))

/-- `np.setdiff1d(ar1, ar2)`: the sorted unique values of `ar1` that are
not in `ar2`. -/
def np_setdiff1d (ar1 ar2 : List String) : List String :=
  List.insertionSort (fun a b => a ≤ b)
    (dedupFirst (ar1.filter (fun c => !ar2.contains c)))

/-- `DataReport._find_columns` (exploration.py lines 142-152): an empty
request resolves to all table columns; the missing requested names are
computed with `np.setdiff1d`, and any missing name fails the assertion,
whose message lists them all. -/
def findColumns (dfCols requested : List String) :
    Except (List String) (List String) :=
  let cols := if requested.isEmpty then dfCols else requested
  if (np_setdiff1d cols dfCols).isEmpty then .ok cols
  else .error (np_setdiff1d cols dfCols)

/-- The assertion message of `_find_columns`:
`'Column(s) {0} not in data'.format(', '.join(missing))`. -/
def missingMessage (missing : List String) : String :=
  "Column(s) " ++ String.intercalate ", " missing ++ " not in data"

/-- The sort key of `sort_values(['column', 'index', 'function'])`
(exploration.py lines 133-135). -/
def codeKey (r : IssueRow) : Lex (String × Lex (Nat × String)) :=
  toLex (r.column, toLex (r.index, r.function))

/-- The sort key claim C4 asserts: row-id first, then rule name, then
column. -/
def claimKey (r : IssueRow) : Lex (Nat × Lex (String × String)) :=
  toLex (r.index, toLex (r.function, r.column))

/-- The final sort of the returned issue table: a sort by the (column,
row-id, rule) lexicographic key. -/
def sortValidation (rows : List IssueRow) : List IssueRow :=
  List.insertionSort (fun a b => codeKey a ≤ codeKey b) rows

instance : IsTotal IssueRow (fun a b => codeKey a ≤ codeKey b) :=
  ⟨fun a b => le_total (codeKey a) (codeKey b)⟩

instance : IsTrans IssueRow (fun a b => codeKey a ≤ codeKey b) :=
  ⟨fun _ _ _ => le_trans⟩

/-- The rule-group names of `SCHEMA_STRUCTURE` (constants.py lines
12-31), the only keys `_generate_schema` gives a non-geometry column. -/
def groupNames : List String := ["nulls", "default", "min", "max"]

/-- `DataReport.validate` (exploration.py lines 89-140) as a state
transformer: resolve the requested columns (failing carries the missing
names and leaves the state untouched), run the loop, and return the new
state, the accumulated issue rows filtered to the requested columns and
sorted, and the invocation log. -/
def validateStep (runRule : String → String → Option (List (Nat × String)))
    (geoRun : String → Option (List (Nat × String)))
    (schema : Schema) (dfCols requested : List String)
    (st : List IssueRow) :
    Except (List String)
      (List IssueRow × List IssueRow × List (String × String)) :=
  match findColumns dfCols requested with
  | .error missing => .error missing
  | .ok cols =>
    .ok ((validateLoop runRule geoRun cols schema st).1,
         sortValidation ((validateLoop runRule geoRun cols schema st).1.filter
           (fun r => cols.contains r.column)),
         (validateLoop runRule geoRun cols schema st).2)

/-- A sequence of `validate` calls on one `DataReport` instance: each
successful call threads its state to the next; a failed call (its
assertion raising) leaves the state unchanged and produces no result.
Each produced pair is one call's returned issue table and invocation
log. -/
def validateRuns (runRule : String → String → Option (List (Nat × String)))
    (geoRun : String → Option (List (Nat × String)))
    (schema : Schema) (dfCols : List String) :
    List (List String) → List IssueRow →
      List (List IssueRow × List (String × String))
  | [], _ => []
  | req :: rest, st =>
    match validateStep runRule geoRun schema dfCols req st with
    | .error _ => validateRuns runRule geoRun schema dfCols rest st
    | .ok (st', res, log) =>
      (res, log) :: validateRuns runRule geoRun schema dfCols rest st'

/-- `DataReport.describe` (exploration.py lines 76-87): resolve the
requested columns first, then profile each not-yet-profiled requested
column into the description cache (profiling outcomes given by the
`profile` oracle).  A failed resolution raises before any profiling. -/
def describeStep {α : Type} (profile : String → α)
    (dfCols requested : List String) (cache : List (String × α)) :
    Except (List String) (List (String × α)) :=
  match findColumns dfCols requested with
  | .error missing => .error missing
  | .ok cols =>
    .ok (cols.foldl
      (fun c col =>
        if c.any (fun kv => kv.1 == col) then c else c ++ [(col, profile col)])
      cache)

end Exploration

/-- C1: for one-dimensional (hashable-valued) columns, `utils.get_type`
implements exactly the priority cascade stated by the claim: geometry name
pre-empts everything; then EMPTY, CONSTANT, BOOLEAN (bool dtype or numeric
with exactly 2 distinct non-null values), DATE, NUMERIC, UNIQUE, STRING in
strict order. -/
theorem C1_classify_priority (s : Series) (h : hashableVals s.values = true) :
    Utils.get_type s = claimClassify s := by
  unfold Utils.get_type claimClassify nuniqueE Utils.typeFromCounts
  rw [h]
  simp [Bool.and_comm]

/-- C1 witness: a concrete two-valued numeric column classifies as BOOLEAN
and agrees with the claim's cascade. -/
theorem C1_classify_priority_witness :
    hashableVals [Val.vInt 0, Val.vInt 1, Val.vInt 0] = true ∧
      Utils.get_type ⟨"flag", .int64, [Val.vInt 0, Val.vInt 1, Val.vInt 0]⟩ =
        claimClassify ⟨"flag", .int64, [Val.vInt 0, Val.vInt 1, Val.vInt 0]⟩ ∧
      Utils.get_type ⟨"flag", .int64, [Val.vInt 0, Val.vInt 1, Val.vInt 0]⟩ =
        Constants.TYPE_BOOL :=
  ⟨by decide,
   C1_classify_priority ⟨"flag", .int64, [Val.vInt 0, Val.vInt 1, Val.vInt 0]⟩
     (by decide),
   by decide⟩

/-- C3: the classifier is total — it always yields one of the spec's
semantic-type tags — and whenever the classification body fails (the
`nunique` computation raising on malformed, e.g. array-valued, input) on a
non-geometry-named column, the result is `UNSUPPORTED`. -/
theorem C3_classify_total (s : Series) :
    Utils.get_type s ∈ Constants.semanticTypes ∧
      (s.name ≠ "geometry" → hashableVals s.values = false →
        Utils.get_type s = Constants.TYPE_UNSUPPORTED) := by
  constructor
  · unfold Utils.get_type
    split
    · simp [Constants.semanticTypes]
    · unfold nuniqueE
      split
      · unfold Utils.typeFromCounts
        split
        · simp [Constants.semanticTypes]
        · split
          · simp [Constants.semanticTypes]
          · split
            · simp [Constants.semanticTypes]
            · split
              · simp [Constants.semanticTypes]
              · split
                · simp [Constants.semanticTypes]
                · split
                  · simp [Constants.semanticTypes]
                  · simp [Constants.semanticTypes]
      · simp [Constants.semanticTypes]
  · intro hname hmal
    unfold Utils.get_type nuniqueE
    rw [hmal]
    simp [hname]

/-- C3 witness: a column holding an array-valued (2-dimensional) cell is
malformed, classifies as `UNSUPPORTED`, and the result is still one of the
enumeration's tags. -/
theorem C3_classify_total_witness :
    Utils.get_type ⟨"x", .objectT, [Val.vArr 2]⟩ ∈ Constants.semanticTypes ∧
      Utils.get_type ⟨"x", .objectT, [Val.vArr 2]⟩ =
        Constants.TYPE_UNSUPPORTED :=
  ⟨(C3_classify_total ⟨"x", .objectT, [Val.vArr 2]⟩).1,
   (C3_classify_total ⟨"x", .objectT, [Val.vArr 2]⟩).2 (by decide) (by decide)⟩

/-- C2: evaluation of the source's range machinery at the claim's
scenario `{age: [5, 12, -1, 200]}` with bounds `(0, 120)`.  The code
produces no issue at all: `tools.get_type` yields `"UNIQUE NUMERIC"`,
which is not a substring of `"DATE"`, `"NUMERIC"` or `"STRING"`, so
`validation.range` dispatches no branch; and even on a column that does
dispatch (last conjunct, with a repeated value), `is_outbound` misses the
`-1` row because the lower bound `0` is falsy in Python — only the `200`
row is flagged.  The claim's two expected rows are therefore not
produced. -/
theorem C2_range_scenario_eval :
    Tools.get_type ⟨"age", .int64, [.vInt 5, .vInt 12, .vInt (-1), .vInt 200]⟩ =
        "UNIQUE NUMERIC" ∧
      Validation.range ⟨"age", .int64, [.vInt 5, .vInt 12, .vInt (-1), .vInt 200]⟩
        [.vInt 0, .vInt 120] = none ∧
      Tools.is_outbound (.vInt (-1)) (.vInt 0) (.vInt 120) = none ∧
      Tools.is_outbound (.vInt 200) (.vInt 0) (.vInt 120) =
        some "Value is greater than the upper bound" ∧
      Validation.range ⟨"age", .int64, [.vInt 5, .vInt 5, .vInt (-1), .vInt 200]⟩
        [.vInt 0, .vInt 120] =
        some [(3, "Value is greater than the upper bound")] :=
  ⟨rfl, rfl, rfl, rfl, rfl⟩

/-- Counting balance behind C6, stated without truncated subtraction:
`size + nonzero-non-missing = count + np.count_nonzero` over a numeric
column. -/
theorem C6_count_balance (vs : List Val)
    (h : vs.all Tools.isNumericCell = true) :
    vs.length + Tools.nonMissingNonzero vs Constants.NULLS =
      Tools.seriesCount vs Constants.NULLS + Tools.npCountNonzero vs := by
  induction vs with
  | nil => rfl
  | cons v vs ih =>
    rw [List.all_cons, Bool.and_eq_true] at h
    obtain ⟨hv, hvs⟩ := h
    have ih' := ih hvs
    cases v with
    | vNaN =>
      have e1 : Tools.nonMissingNonzero (.vNaN :: vs) Constants.NULLS =
          Tools.nonMissingNonzero vs Constants.NULLS := rfl
      have e2 : Tools.seriesCount (.vNaN :: vs) Constants.NULLS =
          Tools.seriesCount vs Constants.NULLS := rfl
      have e3 : Tools.npCountNonzero (.vNaN :: vs) =
          Tools.npCountNonzero vs + 1 := by
        simp [Tools.npCountNonzero, List.countP_cons, pyTruthy]
      rw [List.length_cons, e1, e2, e3]
      omega
    | vInt n =>
      have hvi : vIsin (.vInt n) Constants.NULLS = false := rfl
      have e2 : Tools.seriesCount (.vInt n :: vs) Constants.NULLS =
          Tools.seriesCount vs Constants.NULLS + 1 := by
        simp [Tools.seriesCount, List.filter_cons, isNa, hvi, List.filter_filter]
      by_cases hn : n = 0
      · subst hn
        have e1 : Tools.nonMissingNonzero (.vInt 0 :: vs) Constants.NULLS =
            Tools.nonMissingNonzero vs Constants.NULLS := by
          simp [Tools.nonMissingNonzero, List.filter_cons, List.countP_cons,
            pyTruthy, hvi]
        have e3 : Tools.npCountNonzero (.vInt 0 :: vs) =
            Tools.npCountNonzero vs := by
          simp [Tools.npCountNonzero, List.countP_cons, pyTruthy]
        rw [List.length_cons, e1, e2, e3]
        omega
      · have e1 : Tools.nonMissingNonzero (.vInt n :: vs) Constants.NULLS =
            Tools.nonMissingNonzero vs Constants.NULLS + 1 := by
          simp [Tools.nonMissingNonzero, List.filter_cons, List.countP_cons,
            pyTruthy, hvi, hn]
        have e3 : Tools.npCountNonzero (.vInt n :: vs) =
            Tools.npCountNonzero vs + 1 := by
          simp [Tools.npCountNonzero, List.countP_cons, pyTruthy, hn]
        rw [List.length_cons, e1, e2, e3]
        omega
    | vNone => simp [Tools.isNumericCell] at hv
    | vStr s => simp [Tools.isNumericCell] at hv
    | vBool b => simp [Tools.isNumericCell] at hv
    | vArr k => simp [Tools.isNumericCell] at hv

/-- C6: for a NUMERIC column (cells are numbers or NaN), the profile's
`n_zeros` (`size - np.count_nonzero`) plus the count of nonzero
non-missing values equals `count`, the profile's count of non-missing
observations, missingness taken against the null-sentinel set. -/
theorem C6_numeric_zeros (vs : List Val)
    (h : vs.all Tools.isNumericCell = true) :
    Tools.n_zeros vs + Tools.nonMissingNonzero vs Constants.NULLS =
      Tools.seriesCount vs Constants.NULLS := by
  have hb := C6_count_balance vs h
  have hle : Tools.npCountNonzero vs ≤ vs.length := List.countP_le_length _
  unfold Tools.n_zeros
  omega

/-- C6 witness: the identity at a concrete numeric column with a zero, a
NaN, and nonzero values. -/
theorem C6_numeric_zeros_witness :
    [Val.vInt 0, Val.vNaN, Val.vInt 3, Val.vInt (-2)].all Tools.isNumericCell
        = true ∧
      Tools.n_zeros [Val.vInt 0, Val.vNaN, Val.vInt 3, Val.vInt (-2)] +
        Tools.nonMissingNonzero [Val.vInt 0, Val.vNaN, Val.vInt 3, Val.vInt (-2)]
          Constants.NULLS =
        Tools.seriesCount [Val.vInt 0, Val.vNaN, Val.vInt 3, Val.vInt (-2)]
          Constants.NULLS :=
  ⟨by decide,
   C6_numeric_zeros [Val.vInt 0, Val.vNaN, Val.vInt 3, Val.vInt (-2)] (by decide)⟩

/-- A guarded empty-check result is never `some` of an empty list. -/
theorem guarded_some_ne_nil {α : Type} {l xs : List α}
    (h : (if l.isEmpty then none else some l) = some xs) : xs ≠ [] := by
  split at h
  · simp at h
  · next hne =>
    cases h
    intro hnil
    subst hnil
    simp at hne

/-- Mapped variant of `guarded_some_ne_nil`. -/
theorem guarded_some_map_ne_nil {α β : Type} {l : List α} {f : α → β}
    {xs : List β}
    (h : (if l.isEmpty then none else some (l.map f)) = some xs) : xs ≠ [] := by
  split at h
  · simp at h
  · next hne =>
    cases h
    intro hnil
    rw [List.map_eq_nil_iff] at hnil
    subst hnil
    simp at hne

/-- C10: every checker in the rule registry either reports nothing or a
non-empty issue list: whenever `range`, `geospatial`, `bounding_box` or
`sliver` returns a value, that value holds at least one (row-id, note)
entry. -/
theorem C10_checkers_nonempty (s : Series) (param : List Val)
    (inBox : GeoVal → Bool) (geoS : List (Nat × GeoVal)) (x0 x1 y0 y1 : Int)
    (pieces : List (Nat × GeoPiece)) (threshold : Int) :
    (∀ xs, Validation.range s param = some xs → xs ≠ []) ∧
    (∀ xs, Validation.geospatial geoS = some xs → xs ≠ []) ∧
    (∀ xs, Validation.bounding_box inBox geoS x0 x1 y0 y1 = some xs → xs ≠ []) ∧
    (∀ xs, Validation.sliver pieces threshold = some xs → xs ≠ []) := by
  refine ⟨?_, ?_, ?_, ?_⟩ <;> intro xs h
  · unfold Validation.range at h
    split at h
    · rcases param with _ | ⟨a, _ | ⟨b, _ | ⟨c, rest⟩⟩⟩
      · simp at h
      · simp at h
      · exact guarded_some_ne_nil h
      · simp at h
    · split at h
      · exact guarded_some_map_ne_nil h
      · simp at h
  · unfold Validation.geospatial at h
    exact guarded_some_map_ne_nil h
  · unfold Validation.bounding_box at h
    exact guarded_some_map_ne_nil h
  · unfold Validation.sliver at h
    exact guarded_some_map_ne_nil h

/-- C10 witness: the theorem applied at concrete inputs where
`geospatial` reports a null geometry and `range` flags an out-of-range
value. -/
theorem C10_checkers_nonempty_witness :
    Validation.geospatial [(0, GeoVal.gnull)] = some [(0, "Null geometry")] ∧
      ([((0 : Nat), "Null geometry")] : List (Nat × String)) ≠ [] ∧
      ([((3 : Nat), "Value is greater than the upper bound")] :
          List (Nat × String)) ≠ [] :=
  ⟨rfl,
   (C10_checkers_nonempty ⟨"g", .objectT, []⟩ [] (fun _ => true)
      [(0, GeoVal.gnull)] 0 0 0 0 [] 0).2.1 _ (by rfl),
   (C10_checkers_nonempty ⟨"age", .int64, [.vInt 5, .vInt 5, .vInt (-1), .vInt 200]⟩
      [.vInt 0, .vInt 120] (fun _ => true) [] 0 0 0 0 [] 0).1 _ (by rfl)⟩

/-- C5: the effective null-sentinel list for a column is the union
(concatenation) of the process-wide default set with the column-specific
set; every default sentinel stays in the effective set — and is still
normalized to NaN — whatever column-specific `nulls` entry is present. -/
theorem C5_null_sentinel_union (nullsGroup : List (String × List Val))
    (col : String) :
    (∀ v : Val, v ∈ Exploration.effectiveNulls nullsGroup col ↔
      (v ∈ Constants.NULLS ∨ v ∈ Exploration.columnExtra nullsGroup col)) ∧
    (∀ v ∈ Constants.NULLS,
      v ∈ Exploration.effectiveNulls nullsGroup col ∧
        Exploration.normalizeVal nullsGroup col v = .vNaN) := by
  constructor
  · intro v
    exact List.mem_append
  · intro v hv
    have hmem : v ∈ Exploration.effectiveNulls nullsGroup col :=
      List.mem_append_left _ hv
    refine ⟨hmem, ?_⟩
    unfold Exploration.normalizeVal
    have : vIsin v (Exploration.effectiveNulls nullsGroup col) = true := by
      unfold vIsin
      simpa using hmem
    rw [this]
    simp

/-- C5 witness: with a column-specific override `{c: [0]}`, the default
sentinel `"null"` is still an effective sentinel of column `c` and still
normalizes to NaN, and the override value is unioned in. -/
theorem C5_null_sentinel_union_witness :
    (Val.vStr "null" ∈
        Exploration.effectiveNulls [("c", [Val.vInt 0])] "c" ∧
      Exploration.normalizeVal [("c", [Val.vInt 0])] "c" (Val.vStr "null") =
        .vNaN) ∧
      (Val.vInt 0 ∈ Exploration.effectiveNulls [("c", [Val.vInt 0])] "c") :=
  ⟨(C5_null_sentinel_union [("c", [Val.vInt 0])] "c").2 (Val.vStr "null")
     (by decide),
   ((C5_null_sentinel_union [("c", [Val.vInt 0])] "c").1 (Val.vInt 0)).2
     (Or.inr (by decide))⟩

/-- `_format_requirements` is idempotent: normalizing an already
normalized rule group changes nothing. -/
theorem formatRequirements_idem (dfCols : List String) (to_list : Bool)
    (req : List (String × Exploration.RVal)) :
    Exploration.formatRequirements dfCols to_list
        (Exploration.formatRequirements dfCols to_list req) =
      Exploration.formatRequirements dfCols to_list req := by
  induction req with
  | nil => rfl
  | cons kv rest ih =>
    rcases kv with ⟨k, v⟩
    by_cases hk : k ∈ dfCols
    · cases v with
      | scalar w =>
        cases to_list with
        | false => simp [Exploration.formatRequirements, hk, ih]
        | true => simp [Exploration.formatRequirements, hk, ih]
      | vlist ws => simp [Exploration.formatRequirements, hk, ih]
    · simp [Exploration.formatRequirements, hk, ih]

/-- C7: schema building is idempotent.  `_format_requirements` mutates
the caller's rule-group dicts in place (dropping unknown columns and
wrapping scalars), so building twice from identical inputs means the
second build receives the normalized groups; it produces the same schema
as the first build. -/
theorem C7_schema_idempotent (dfCols : List String)
    (nullsG defaultG minG maxG : List (String × Exploration.RVal))
    (sliverP bboxP : Exploration.RVal) :
    Exploration.generateSchema dfCols
        (Exploration.formatRequirements dfCols true nullsG)
        (Exploration.formatRequirements dfCols false defaultG)
        (Exploration.formatRequirements dfCols false minG)
        (Exploration.formatRequirements dfCols false maxG) sliverP bboxP =
      Exploration.generateSchema dfCols nullsG defaultG minG maxG
        sliverP bboxP := by
  unfold Exploration.generateSchema Exploration.addGroup
  rw [formatRequirements_idem, formatRequirements_idem,
    formatRequirements_idem, formatRequirements_idem]

/-- Deduplication does not change membership. -/
theorem mem_dedupFirst {x : String} :
    ∀ {l : List String}, x ∈ Exploration.dedupFirst l ↔ x ∈ l := by
  intro l
  induction l with
  | nil => simp [Exploration.dedupFirst]
  | cons a as ih =>
    simp only [Exploration.dedupFirst, List.mem_cons, List.mem_filter, ih]
    by_cases hx : x = a
    · simp [hx]
    · simp [hx, bne_iff_ne]

/-- `np.setdiff1d` membership: exactly the elements of the first list
absent from the second. -/
theorem mem_np_setdiff1d {x : String} {a b : List String} :
    x ∈ Exploration.np_setdiff1d a b ↔ (x ∈ a ∧ x ∉ b) := by
  unfold Exploration.np_setdiff1d
  rw [List.mem_insertionSort, mem_dedupFirst, List.mem_filter]
  simp

/-- C8: when a requested column list names any column absent from the
table, `describe` and `validate` both fail at column resolution with an
error carrying every missing name (not only the first), and neither
profiles nor validates anything in that call (the failure precedes the
profiling loop and the checker loop, so no cache/state change and no
checker invocation occurs). -/
theorem C8_unknown_columns {α : Type} (profile : String → α)
    (cache : List (String × α))
    (runRule : String → String → Option (List (Nat × String)))
    (geoRun : String → Option (List (Nat × String)))
    (schema : Exploration.Schema) (st : List Exploration.IssueRow)
    (dfCols requested : List String) (c : String)
    (hne : requested ≠ []) (hc : c ∈ requested) (hmiss : c ∉ dfCols) :
    ∃ ms, Exploration.findColumns dfCols requested = .error ms ∧
      Exploration.validateStep runRule geoRun schema dfCols requested st =
        .error ms ∧
      Exploration.describeStep profile dfCols requested cache = .error ms ∧
      (∀ x, x ∈ ms ↔ (x ∈ requested ∧ x ∉ dfCols)) := by
  have hreq : requested.isEmpty = false := by
    cases requested with
    | nil => exact absurd rfl hne
    | cons _ _ => rfl
  have hin : c ∈ Exploration.np_setdiff1d requested dfCols :=
    mem_np_setdiff1d.mpr ⟨hc, hmiss⟩
  have hnonempty :
      (Exploration.np_setdiff1d requested dfCols).isEmpty = false := by
    rcases h : (Exploration.np_setdiff1d requested dfCols).isEmpty with _ | _
    · rfl
    · rw [List.isEmpty_iff] at h
      rw [h] at hin
      simp at hin
  have hfc : Exploration.findColumns dfCols requested =
      .error (Exploration.np_setdiff1d requested dfCols) := by
    unfold Exploration.findColumns
    rw [hreq]
    simp only [Bool.false_eq_true, if_false, hnonempty]
  refine ⟨Exploration.np_setdiff1d requested dfCols, hfc, ?_, ?_, ?_⟩
  · unfold Exploration.validateStep
    rw [hfc]
  · unfold Exploration.describeStep
    rw [hfc]
  · intro x
    exact mem_np_setdiff1d

/-- C8 witness: requesting the absent column `b` of a table with the
single column `a` fails both calls with the full missing list. -/
theorem C8_unknown_columns_witness :
    (["b"] : List String) ≠ [] ∧ "b" ∈ (["b"] : List String) ∧
      "b" ∉ (["a"] : List String) ∧
      (∃ ms, Exploration.findColumns ["a"] ["b"] = .error ms ∧
        Exploration.validateStep (fun _ _ => none) (fun _ => none) [] ["a"]
          ["b"] [] = .error ms ∧
        Exploration.describeStep (fun _ => (0 : Nat)) ["a"] ["b"] [] =
          .error ms ∧
        (∀ x, x ∈ ms ↔ (x ∈ (["b"] : List String) ∧
          x ∉ (["a"] : List String)))) :=
  ⟨by decide, by decide, by decide,
   C8_unknown_columns (fun _ => (0 : Nat)) [] (fun _ _ => none)
     (fun _ => none) [] [] ["a"] ["b"] "b" (by decide) (by decide) (by decide)⟩

/-- Every invocation-log entry produced for a column names that
column. -/
theorem colLog_fst (col : String) (conds : List (String × Exploration.RVal)) :
    ∀ e ∈ Exploration.colLog col conds, e.1 = col := by
  intro e he
  unfold Exploration.colLog at he
  rw [List.mem_append] at he
  rcases he with he | he
  · split at he
    · rw [List.mem_singleton] at he
      rw [he]
    · simp at he
  · rw [List.mem_map] at he
    obtain ⟨v, _, rfl⟩ := he
    rfl

/-- If the incoming validation table already records an issue row for
`col`, the loop never logs an invocation for `col`. -/
theorem validateLoop_skip_log
    (runRule : String → String → Option (List (Nat × String)))
    (geoRun : String → Option (List (Nat × String)))
    (cols : List String) (col : String) :
    ∀ (schema : Exploration.Schema) (st : List Exploration.IssueRow),
      st.any (fun r => r.column == col) = true →
      ∀ e ∈ (Exploration.validateLoop runRule geoRun cols schema st).2,
        e.1 ≠ col := by
  intro schema
  induction schema with
  | nil =>
    intro st _ e he
    simp [Exploration.validateLoop] at he
  | cons p rest ih =>
    intro st hst e he
    unfold Exploration.validateLoop at he
    split at he
    · exact ih st hst e he
    · next hcond =>
      have hpcol : p.1 ≠ col := by
        intro hpc
        apply hcond
        rw [hpc, hst]
        simp
      rw [List.mem_append] at he
      rcases he with he | he
      · rw [colLog_fst p.1 p.2 e he]
        exact hpcol
      · refine ih _ ?_ e he
        rw [List.any_append, hst]
        rfl

/-- C9 counterexample: on a table with a geometry column whose checkers
all report nothing, two consecutive `validate(['geometry'])` calls on the
same instance invoke the `geospatial` checker for that column twice — the
checked column is re-run because the skip test looks for recorded issue
rows, and none were recorded. -/
theorem C9_checker_rerun_counterexample :
    ((Exploration.validateRuns (fun _ _ => none) (fun _ => none)
          (Exploration.generateSchema ["geometry"] [] [] [] []
            (.scalar .vNone) (.scalar .vNone))
          ["geometry"] [["geometry"], ["geometry"]] []).flatMap
        (fun rl => rl.2)).count ("geometry", "geospatial") = 2 := by decide

/-- C9 amended: a column is skipped by later `validate` calls only once
it has at least one recorded issue row — whenever the state already
records an issue row for the column, a subsequent successful `validate`
call invokes no checker for it (columns whose checks reported nothing are
re-checked, as the counterexample shows). -/
theorem C9_checker_cache_amended
    (runRule : String → String → Option (List (Nat × String)))
    (geoRun : String → Option (List (Nat × String)))
    (schema : Exploration.Schema) (dfCols requested : List String)
    (st st' res : List Exploration.IssueRow)
    (log : List (String × String)) (col : String)
    (hrec : st.any (fun r => r.column == col) = true)
    (h : Exploration.validateStep runRule geoRun schema dfCols requested st =
      .ok (st', res, log)) :
    ∀ e ∈ log, e.1 ≠ col := by
  unfold Exploration.validateStep at h
  cases hfc : Exploration.findColumns dfCols requested with
  | error ms =>
    rw [hfc] at h
    simp at h
  | ok cols =>
    rw [hfc] at h
    simp only [Except.ok.injEq, Prod.mk.injEq] at h
    obtain ⟨h1, h2, h3⟩ := h
    rw [← h3]
    exact validateLoop_skip_log runRule geoRun cols col schema st hrec

/-- C9 amended witness: with an issue row already recorded for
`geometry`, a second `validate(['geometry'])` returns that row, runs no
checker, and its (empty) invocation log names no `geometry` checker. -/
theorem C9_checker_cache_amended_witness :
    Exploration.validateStep (fun _ _ => none) (fun _ => none)
        (Exploration.generateSchema ["geometry"] [] [] [] []
          (.scalar .vNone) (.scalar .vNone))
        ["geometry"] ["geometry"]
        [⟨"geospatial", 0, "Null geometry", "geometry"⟩] =
      .ok ([⟨"geospatial", 0, "Null geometry", "geometry"⟩],
           [⟨"geospatial", 0, "Null geometry", "geometry"⟩], []) ∧
      (([] : List (String × String)).all
        (fun e => e.1 != "geometry")) = true :=
  ⟨rfl,
   List.all_eq_true.mpr (fun e he =>
     bne_iff_ne.mpr
       (C9_checker_cache_amended (fun _ _ => none) (fun _ => none)
         (Exploration.generateSchema ["geometry"] [] [] [] []
           (.scalar .vNone) (.scalar .vNone))
         ["geometry"] ["geometry"]
         [⟨"geospatial", 0, "Null geometry", "geometry"⟩]
         [⟨"geospatial", 0, "Null geometry", "geometry"⟩]
         [⟨"geospatial", 0, "Null geometry", "geometry"⟩]
         [] "geometry" (by decide) rfl e he))⟩

/-- Setting a rule on a column's rule map introduces no key other than
the rule's name. -/
theorem condSet_keys (conds : List (String × Exploration.RVal))
    (name : String) (v : Exploration.RVal) :
    ∀ k ∈ (Exploration.condSet conds name v).map Prod.fst,
      k = name ∨ k ∈ conds.map Prod.fst := by
  intro k hk
  unfold Exploration.condSet at hk
  split at hk
  · rw [List.map_map, List.mem_map] at hk
    obtain ⟨kv, hkv, hfk⟩ := hk
    simp only [Function.comp_apply] at hfk
    by_cases hn : (kv.1 == name) = true
    · rw [if_pos hn] at hfk
      exact Or.inl hfk.symm
    · rw [if_neg hn] at hfk
      exact Or.inr (List.mem_map.mpr ⟨kv, hkv, hfk⟩)
  · rw [List.map_append, List.mem_append] at hk
    rcases hk with hk | hk
    · exact Or.inr hk
    · simp at hk
      exact Or.inl hk

/-- `schemaInsert` with a rule name from the group names preserves the
invariant that non-geometry columns hold only group-name keys. -/
theorem schemaInsert_keysOk {sch : Exploration.Schema} {col name : String}
    {v : Exploration.RVal} (hname : name ∈ Exploration.groupNames)
    (hp : ∀ e ∈ sch, e.1 ≠ "geometry" →
      ∀ k ∈ e.2.map Prod.fst, k ∈ Exploration.groupNames) :
    ∀ e ∈ Exploration.schemaInsert sch col name v, e.1 ≠ "geometry" →
      ∀ k ∈ e.2.map Prod.fst, k ∈ Exploration.groupNames := by
  intro e he hgeo k hk
  unfold Exploration.schemaInsert at he
  split at he
  · rw [List.mem_map] at he
    obtain ⟨e', he', rfl⟩ := he
    by_cases hc : e'.1 == col
    · simp only [hc, if_pos] at hgeo hk ⊢
      rcases condSet_keys e'.2 name v k hk with rfl | hk'
      · exact hname
      · exact hp e' he' hgeo k hk'
    · simp only [hc, Bool.false_eq_true, if_false] at hgeo hk ⊢
      exact hp e' he' hgeo k hk
  · rw [List.mem_append] at he
    rcases he with he | he
    · exact hp e he hgeo k hk
    · rw [List.mem_singleton] at he
      subst he
      simp at hk
      subst hk
      exact hname

/-- `addGroup` with a group rule name preserves the key invariant. -/
theorem addGroup_keysOk (dfCols : List String) (sch : Exploration.Schema)
    (name : String) (to_list : Bool)
    (req : List (String × Exploration.RVal))
    (hname : name ∈ Exploration.groupNames)
    (hp : ∀ e ∈ sch, e.1 ≠ "geometry" →
      ∀ k ∈ e.2.map Prod.fst, k ∈ Exploration.groupNames) :
    ∀ e ∈ Exploration.addGroup dfCols sch name to_list req,
      e.1 ≠ "geometry" →
        ∀ k ∈ e.2.map Prod.fst, k ∈ Exploration.groupNames := by
  unfold Exploration.addGroup
  generalize Exploration.formatRequirements dfCols to_list req = l
  induction l generalizing sch with
  | nil => exact hp
  | cons kv rest ih =>
    rw [List.foldl_cons]
    exact ih _ (schemaInsert_keysOk hname hp)

/-- The geometry override touches only the geometry entry, so it
preserves the key invariant for the other columns. -/
theorem setGeometry_keysOk {sch : Exploration.Schema}
    {conds : List (String × Exploration.RVal)}
    (hp : ∀ e ∈ sch, e.1 ≠ "geometry" →
      ∀ k ∈ e.2.map Prod.fst, k ∈ Exploration.groupNames) :
    ∀ e ∈ Exploration.setGeometry sch conds, e.1 ≠ "geometry" →
      ∀ k ∈ e.2.map Prod.fst, k ∈ Exploration.groupNames := by
  intro e he hgeo k hk
  unfold Exploration.setGeometry at he
  split at he
  · rw [List.mem_map] at he
    obtain ⟨e', he', rfl⟩ := he
    by_cases hc : e'.1 == "geometry"
    · simp only [hc, if_pos] at hgeo hk ⊢
      rw [beq_iff_eq] at hc
      exact absurd hc hgeo
    · simp only [hc, Bool.false_eq_true, if_false] at hgeo hk ⊢
      exact hp e' he' hgeo k hk
  · rw [List.mem_append] at he
    rcases he with he | he
    · exact hp e he hgeo k hk
    · rw [List.mem_singleton] at he
      subst he
      exact absurd rfl hgeo

/-- Every non-geometry column of a generated schema carries only the four
group-rule keys. -/
theorem generateSchema_keysOk (dfCols : List String)
    (nullsG defaultG minG maxG : List (String × Exploration.RVal))
    (sliverP bboxP : Exploration.RVal) :
    ∀ e ∈ Exploration.generateSchema dfCols nullsG defaultG minG maxG
        sliverP bboxP,
      e.1 ≠ "geometry" →
        ∀ k ∈ e.2.map Prod.fst, k ∈ Exploration.groupNames := by
  simp only [Exploration.generateSchema]
  have h0 : ∀ e ∈ ([] : Exploration.Schema), e.1 ≠ "geometry" →
      ∀ k ∈ e.2.map Prod.fst, k ∈ Exploration.groupNames := by
    intro e he
    simp at he
  have h1 := addGroup_keysOk dfCols [] "nulls" true nullsG (by decide) h0
  have h2 := addGroup_keysOk dfCols _ "default" false defaultG (by decide) h1
  have h3 := addGroup_keysOk dfCols _ "min" false minG (by decide) h2
  have h4 := addGroup_keysOk dfCols _ "max" false maxG (by decide) h3
  split
  · exact setGeometry_keysOk h4
  · exact h4

/-- Columns holding only group-rule keys dispatch no checker: the group
names and the registry's callable names are disjoint. -/
theorem checksFor_eq_nil_of_groupKeys
    {conds : List (String × Exploration.RVal)}
    (hkeys : ∀ k ∈ conds.map Prod.fst, k ∈ Exploration.groupNames) :
    Exploration.checksFor conds = [] := by
  unfold Exploration.checksFor
  rw [List.filter_eq_nil_iff]
  intro c hc hcont
  have hmem : c ∈ conds.map Prod.fst := by
    simpa using hcont
  have hg := hkeys c hmem
  fin_cases hc <;> simp [Exploration.groupNames] at hg

/-- Rows appended for a column are tagged with that column. -/
theorem auditRows_column (col : String)
    (audits : List (String × List (Nat × String))) :
    ∀ r ∈ Exploration.auditRows col audits, r.column = col := by
  intro r hr
  unfold Exploration.auditRows at hr
  rw [List.mem_flatMap] at hr
  obtain ⟨fa, _, hr⟩ := hr
  rw [List.mem_map] at hr
  obtain ⟨p, _, rfl⟩ := hr
  rfl

/-- A non-geometry column with no dispatched checks produces no audit
entries. -/
theorem colAudits_nil_of_nongeo
    (runRule : String → String → Option (List (Nat × String)))
    (geoRun : String → Option (List (Nat × String)))
    {col : String} {conds : List (String × Exploration.RVal)}
    (hcol : col ≠ "geometry") (hchecks : Exploration.checksFor conds = []) :
    Exploration.colAudits runRule geoRun col conds = [] := by
  unfold Exploration.colAudits
  rw [hchecks]
  simp [hcol]

/-- Under a schema whose non-geometry columns dispatch no checks, the
loop only ever appends geometry-tagged rows. -/
theorem validateLoop_all_geo
    (runRule : String → String → Option (List (Nat × String)))
    (geoRun : String → Option (List (Nat × String)))
    (cols : List String) :
    ∀ (schema : Exploration.Schema) (st : List Exploration.IssueRow),
      (∀ e ∈ schema, e.1 ≠ "geometry" → Exploration.checksFor e.2 = []) →
      (∀ r ∈ st, r.column = "geometry") →
      ∀ r ∈ (Exploration.validateLoop runRule geoRun cols schema st).1,
        r.column = "geometry" := by
  intro schema
  induction schema with
  | nil =>
    intro st _ hst r hr
    exact hst r hr
  | cons p rest ih =>
    intro st hs hst r hr
    unfold Exploration.validateLoop at hr
    split at hr
    · exact ih st (fun e he => hs e (List.mem_cons_of_mem p he)) hst r hr
    · refine ih _ (fun e he => hs e (List.mem_cons_of_mem p he)) ?_ r hr
      intro r' hr'
      rw [List.mem_append] at hr'
      rcases hr' with hr' | hr'
      · exact hst r' hr'
      · by_cases hp : p.1 = "geometry"
        · rw [auditRows_column p.1 _ r' hr']
          exact hp
        · rw [colAudits_nil_of_nongeo runRule geoRun hp
            (hs p (List.mem_cons_self p rest) hp)] at hr'
          simp [Exploration.auditRows] at hr'

/-- The code's sort key dominates the claim's sort key once all columns
coincide: rows sorted by (column, row-id, rule) with equal columns are
also ordered by (row-id, rule, column). -/
theorem codeKey_le_claimKey {a b : Exploration.IssueRow}
    (hcol : a.column = b.column)
    (h : Exploration.codeKey a ≤ Exploration.codeKey b) :
    Exploration.claimKey a ≤ Exploration.claimKey b := by
  unfold Exploration.codeKey at h
  unfold Exploration.claimKey
  rw [Prod.Lex.le_iff] at h
  rw [Prod.Lex.le_iff]
  rcases h with h | ⟨heq, h2⟩
  · rw [hcol] at h
    exact absurd h (lt_irrefl _)
  · rw [Prod.Lex.le_iff] at h2
    rcases h2 with h2 | ⟨hieq, hf⟩
    · exact Or.inl h2
    · refine Or.inr ⟨hieq, ?_⟩
      rw [Prod.Lex.le_iff]
      rcases lt_or_eq_of_le hf with hlt | heqf
      · exact Or.inl hlt
      · exact Or.inr ⟨heqf, le_of_eq hcol⟩

/-- Every issue table produced by a run sequence under a generated-style
schema is sorted by the claim's (row-id, rule, column) key. -/
theorem validateRuns_sorted
    (runRule : String → String → Option (List (Nat × String)))
    (geoRun : String → Option (List (Nat × String)))
    (schema : Exploration.Schema) (dfCols : List String)
    (hs : ∀ e ∈ schema, e.1 ≠ "geometry" → Exploration.checksFor e.2 = []) :
    ∀ (requests : List (List String)) (st : List Exploration.IssueRow),
      (∀ r ∈ st, r.column = "geometry") →
      ∀ pr ∈ Exploration.validateRuns runRule geoRun schema dfCols
          requests st,
        List.Pairwise
          (fun a b => Exploration.claimKey a ≤ Exploration.claimKey b)
          pr.1 := by
  intro requests
  induction requests with
  | nil =>
    intro st _ pr hpr
    simp [Exploration.validateRuns] at hpr
  | cons req rest ih =>
    intro st hst pr hpr
    unfold Exploration.validateRuns at hpr
    cases hstep : Exploration.validateStep runRule geoRun schema dfCols
        req st with
    | error ms =>
      rw [hstep] at hpr
      exact ih st hst pr hpr
    | ok t =>
      rw [hstep] at hpr
      obtain ⟨st', res, log⟩ := t
      unfold Exploration.validateStep at hstep
      cases hfc : Exploration.findColumns dfCols req with
      | error ms =>
        rw [hfc] at hstep
        simp at hstep
      | ok cols =>
        rw [hfc] at hstep
        simp only [Except.ok.injEq, Prod.mk.injEq] at hstep
        obtain ⟨h1, h2, h3⟩ := hstep
        have hst' : ∀ r ∈ st', r.column = "geometry" := by
          rw [← h1]
          exact validateLoop_all_geo runRule geoRun cols schema st hs hst
        rcases List.mem_cons.mp hpr with rfl | hmem
        · have hsorted : List.Sorted
              (fun a b => Exploration.codeKey a ≤ Exploration.codeKey b)
              res := by
            rw [← h2]
            exact List.sorted_insertionSort _ _
          refine List.Pairwise.imp_of_mem ?_ hsorted
          intro a b ha hb hab
          have hmema : a.column = "geometry" := by
            apply hst'
            rw [← h2] at ha
            rw [Exploration.sortValidation, List.mem_insertionSort,
              List.mem_filter] at ha
            exact h1 ▸ ha.1
          have hmemb : b.column = "geometry" := by
            apply hst'
            rw [← h2] at hb
            rw [Exploration.sortValidation, List.mem_insertionSort,
              List.mem_filter] at hb
            exact h1 ▸ hb.1
          exact codeKey_le_claimKey (hmema.trans hmemb.symm) hab
        · exact ih st' hst' pr hmem

/-- C4: every non-empty issue table returned by any `validate` call of
any call sequence on a freshly built report — any table, rule groups, and
requested subsets — is sorted by row-id, then rule name, then column.
(The code sorts by (column, row-id, rule); only the geometry column can
ever contribute issue rows, so the two orders coincide on every reachable
table.) -/
theorem C4_issue_sort_order
    (runRule : String → String → Option (List (Nat × String)))
    (geoRun : String → Option (List (Nat × String)))
    (dfCols : List String)
    (nullsG defaultG minG maxG : List (String × Exploration.RVal))
    (sliverP bboxP : Exploration.RVal)
    (requests : List (List String)) (res : List Exploration.IssueRow)
    (log : List (String × String))
    (hmem : (res, log) ∈ Exploration.validateRuns runRule geoRun
      (Exploration.generateSchema dfCols nullsG defaultG minG maxG
        sliverP bboxP) dfCols requests [])
    (_hne : res ≠ []) :
    List.Pairwise
      (fun a b => Exploration.claimKey a ≤ Exploration.claimKey b) res :=
  validateRuns_sorted runRule geoRun _ dfCols
    (fun e he hgeo => checksFor_eq_nil_of_groupKeys
      (generateSchema_keysOk dfCols nullsG defaultG minG maxG sliverP bboxP
        e he hgeo))
    requests [] (by intro r hr; simp at hr) (res, log) hmem

/-- C4 witness: a concrete run — a geometry table whose validity check
reports one issue — returns a non-empty table that the theorem shows
sorted. -/
theorem C4_issue_sort_order_witness :
    ((⟨"geospatial", 0, "Self-intersection", "geometry"⟩ ::
          ([] : List Exploration.IssueRow)) ≠ []) ∧
      List.Pairwise
        (fun a b => Exploration.claimKey a ≤ Exploration.claimKey b)
        [⟨"geospatial", 0, "Self-intersection", "geometry"⟩] :=
  ⟨by decide,
   C4_issue_sort_order (fun _ _ => none)
     (fun _ => some [(0, "Self-intersection")]) ["geometry"] [] [] [] []
     (.scalar .vNone) (.scalar .vNone) [["geometry"]]
     [⟨"geospatial", 0, "Self-intersection", "geometry"⟩]
     [("geometry", "geospatial"), ("geometry", "bounding_box"),
      ("geometry", "sliver")]
     (by decide) (by decide)⟩

end Petk
